import Mathlib

/-!
Verification of the mahindra-t2data frontend against its specification.

The definitions below are a shallow embedding, translated from the
JavaScript sources:
  * `src/frontend/src/components/ChatInterface/ChatInterface.js`
  * `src/unnamed/part_004` (an earlier ChatInterface variant that manages
    `sessionId` itself)
  * `src/frontend/src/components/LoginPage/LoginPage.js`
  * `src/frontend/src/App.js`
React `useState` setters are modelled by explicit state passing: each event
handler becomes a pure step function from the component state (plus the
outcome of the one `fetch` the handler performs) to the new state, paired
with the request body it dispatched, if any.
-/

namespace MahindraT2Data

/-- JavaScript `a || b` on an optional string field: an absent field and the
empty string are falsy, everything else is truthy. -/
def jsOr (s : Option String) (d : String) : String :=
  match s with
  | some v => if v == "" then d else v
  | none => d

/-- Drops leading whitespace characters from a character list. -/
def jsTrimAux : List Char → List Char
  | [] => []
  | c :: cs => if c.isWhitespace then jsTrimAux cs else c :: cs

/-- JavaScript `String.prototype.trim`: strip leading and trailing
whitespace (structurally recursive so concrete inputs evaluate). -/
def jsTrim (s : String) : String :=
  ⟨(jsTrimAux ((jsTrimAux s.data).reverse)).reverse⟩

/-- JavaScript truthiness of an optional string (absent and `""` are falsy). -/
def jsTruthy : Option String → Bool
  | some v => v != ""
  | none => false

/-- A JSON value, enough to express the request bodies the frontend builds
with `JSON.stringify`: object keys are explicit data, so statements about
which key carries the utterance are statements about the code. -/
inductive Json where
  | str : String → Json
  | obj : List (String × Json) → Json

/-- First-match association lookup over a JSON object's field list. -/
def lookupField : List (String × Json) → String → Option Json
  | [], _ => none
  | (k, v) :: rest, key => if k == key then some v else lookupField rest key

/-- Field access on a JSON value (`none` on non-objects and absent keys). -/
def Json.getField : Json → String → Option Json
  | .obj fields, key => lookupField fields key
  | .str _, _ => none

/-- A message of the `messages` state of `ChatInterface`
(`ChatInterface.js` line 60 and following); the `id` and `timestamp`
fields are presentation-only and omitted. -/
structure Msg where
  text : String
  sender : String
  deriving Repr, DecidableEq

/-- A `{role, content}` entry of the `/api/chat` response's `messages`. -/
structure RespMsg where
  role : String
  content : String
  deriving Repr, DecidableEq

/-- The parsed JSON body of a `/api/chat` response (`data` in the source):
each field may be absent. -/
structure ChatData where
  session_id : Option String
  messages : Option (List RespMsg)
  error : Option String
  deriving Repr, DecidableEq

/-- Outcome of the `fetch('/api/chat', ...)` call as the handler observes it:
a non-ok HTTP response (status plus the `detail`/`error` fields of the
parsed error body, absent when parsing failed), an ok response with parsed
data, or a thrown exception with its message. -/
inductive FetchOutcome where
  | httpError : Nat → Option String → Option String → FetchOutcome
  | ok : ChatData → FetchOutcome
  | exn : String → FetchOutcome
  deriving Repr, DecidableEq

/-- State of the `ChatInterface` component of `ChatInterface.js`:
`messages`, `inputValue`, `isLoading`, `error`. -/
structure ChatState where
  messages : List Msg
  inputValue : String
  isLoading : Bool
  error : Option String
  deriving Repr, DecidableEq

/-- The request body built at `ChatInterface.js` lines 68-72:
`{user_id, session_id, message: {message, role}}` — note the inner object
puts the utterance under the key `message`, not `content`. -/
def chatRequestBody (username sessionId messageToSend : String) : Json :=
  .obj [("user_id", .str username),
        ("session_id", .str sessionId),
        ("message", .obj [("message", .str messageToSend), ("role", .str "user")])]

/-- The bot replies mapped from the response (`ChatInterface.js` lines 93-98):
`text` is `msg.content`, `sender` is hard-coded `'bot'`. -/
def botReplies (ms : List RespMsg) : List Msg :=
  ms.map (fun m => { text := m.content, sender := "bot" })

/-- The `catch` block of `handleSendMessage` (`ChatInterface.js` lines
103-106): sets the error state and appends one `system` message whose text
is `"Error: "` followed by the thrown message. -/
def chatCatch (st : ChatState) (errMsg : String) : ChatState :=
  { st with
    error := some ("Failed to get response: " ++ errMsg),
    messages := st.messages ++ [{ text := "Error: " ++ errMsg, sender := "system" }] }

/-- The `else if (data.error) throw new Error(data.error)` branch
(`ChatInterface.js` lines 100-102), routed through the catch block;
a falsy `error` field does nothing. -/
def chatDataError (st : ChatState) (data : ChatData) : ChatState :=
  match data.error with
  | some e => if e == "" then st else chatCatch st e
  | none => st

/-- The ok-response branch (`ChatInterface.js` lines 91-102):
append the mapped bot replies when `data.messages` is a non-empty array,
otherwise fall through to the `data.error` check. -/
def chatOkBranch (st : ChatState) (data : ChatData) : ChatState :=
  match data.messages with
  | some ms =>
    if 0 < ms.length then { st with messages := st.messages ++ botReplies ms }
    else chatDataError st data
  | none => chatDataError st data

/-- The message of the error thrown at `ChatInterface.js` line 83 for a
non-ok response: `errorData.error || "Failed to process message"` appended
to the status line. -/
def chatErrMsg (status : Nat) (errF : Option String) : String :=
  "HTTP error! status: " ++ toString status ++ " - "
    ++ jsOr errF "Failed to process message"

/-- `handleSendMessage` of `ChatInterface.js` (lines 55-110) as one step:
given the component state and the fetch outcome, returns the new state and
the dispatched request body (`none` when the guard at line 58 returned
early). The `finally` block resets `isLoading`. -/
def chatStep (username sessionId : String) (st : ChatState) (o : FetchOutcome) :
    ChatState × Option Json :=
  let messageToSend := jsTrim st.inputValue
  if messageToSend == "" || st.isLoading then (st, none)
  else
    let st1 : ChatState :=
      { messages := st.messages ++ [{ text := messageToSend, sender := "user" }],
        inputValue := "", isLoading := true, error := none }
    let st2 :=
      match o with
      | .httpError status _ errF => chatCatch st1 (chatErrMsg status errF)
      | .ok data => chatOkBranch st1 data
      | .exn m => chatCatch st1 m
    ({ st2 with isLoading := false }, some (chatRequestBody username sessionId messageToSend))

/-- The chat input's `disabled` attribute (`ChatInterface.js` line 142). -/
def inputDisabled (st : ChatState) : Bool := st.isLoading

/-- The send button's `disabled` attribute (`ChatInterface.js` line 143). -/
def sendDisabled (st : ChatState) : Bool := st.isLoading || jsTrim st.inputValue == ""

/-- The string a rendered message hands to `ReactMarkdown`
(`ChatInterface.js` line 129): exactly `msg.text`, unmodified. -/
def renderedMarkdown (m : Msg) : String := m.text

/-- A whole conversation: for each event the user types `typed` into the
input and submits, and the fetch resolves with the given outcome. -/
def chatRun (username sessionId : String) : ChatState → List (String × FetchOutcome) → ChatState
  | st, [] => st
  | st, (typed, o) :: rest =>
      chatRun username sessionId
        (chatStep username sessionId { st with inputValue := typed } o).1 rest

/-- The error message, if any, that a `data.error` field produces in the
ok branch of `ChatInterface.js` (a falsy field produces none). -/
def dataFailMsg (data : ChatData) : Option String :=
  match data.error with
  | some e => if e == "" then none else some e
  | none => none

/-- The failure message of an outcome: the thrown message that reaches the
catch block of `ChatInterface.js`, or `none` when the outcome is handled
without throwing. -/
def failMsg (o : FetchOutcome) : Option String :=
  match o with
  | .httpError status _ errF => some (chatErrMsg status errF)
  | .exn m => some m
  | .ok data =>
    match data.messages with
    | some ms => if 0 < ms.length then none else dataFailMsg data
    | none => dataFailMsg data

/-- State of the earlier `ChatInterface` variant of `src/unnamed/part_004`:
it keeps `sessionId` itself (`useState(null)`, line 65) instead of
receiving it as a prop; it has no `error` state. -/
structure Chat4State where
  messages : List Msg
  inputValue : String
  isLoading : Bool
  sessionId : Option String
  deriving Repr, DecidableEq

/-- The inner `message` object of `part_004` lines 107 and 114:
`{message, role}` — again the utterance is under the key `message`. -/
def chat4MsgObj (m : String) : Json :=
  .obj [("message", .str m), ("role", .str "user")]

/-- The request body of `part_004` lines 100-116: `session_id` is omitted
when the stored `sessionId` is falsy (`if (!sessionId)`), included
otherwise. -/
def chat4RequestBody (userId : String) (sessionId : Option String) (m : String) : Json :=
  match sessionId with
  | some s =>
    if s == "" then .obj [("user_id", .str userId), ("message", chat4MsgObj m)]
    else .obj [("user_id", .str userId), ("session_id", .str s), ("message", chat4MsgObj m)]
  | none => .obj [("user_id", .str userId), ("message", chat4MsgObj m)]

/-- The `catch` block of `part_004` (lines 152-154): appends one `system`
message; there is no error state in this variant. -/
def chat4Catch (st : Chat4State) (errMsg : String) : Chat4State :=
  { st with messages := st.messages ++ [{ text := "Error: " ++ errMsg, sender := "system" }] }

/-- The bot replies mapped from the response in `part_004` (lines 137-142):
`sender` is `'user'` when `msg.role === 'user'`, else `'bot'`. -/
def bot4Replies (ms : List RespMsg) : List Msg :=
  ms.map (fun m =>
    { text := m.content, sender := if m.role == "user" then "user" else "bot" })

/-- The `else if (!sessionId && !data.session_id) throw` branch of
`part_004` (lines 146-147), against the `sessionId` the closure captured. -/
def chat4NoSid (origSessionId : Option String) (st : Chat4State) (data : ChatData) :
    Chat4State :=
  if !jsTruthy origSessionId && !jsTruthy data.session_id then
    chat4Catch st "Failed to retrieve session ID and no messages received."
  else st

/-- The else-chain after the non-empty-messages check in `part_004`
(lines 144-150): `data.error` throws when truthy, then the missing
session-id check; an empty messages array only warns. -/
def chat4OkElse (origSessionId : Option String) (st : Chat4State) (data : ChatData) :
    Chat4State :=
  match data.error with
  | some e => if e == "" then chat4NoSid origSessionId st data else chat4Catch st e
  | none => chat4NoSid origSessionId st data

/-- The message of the error thrown at `part_004` line 126 for a non-ok
response: `errorData.detail || errorData.error || "Failed to send/process
message"` appended to the status line. -/
def chat4ErrMsg (status : Nat) (detail errF : Option String) : String :=
  "HTTP error! status: " ++ toString status ++ " - "
    ++ jsOr detail (jsOr errF "Failed to send/process message")

/-- `handleSendMessage` of `part_004` (lines 89-159) as one step: on an ok
response it first stores `data.session_id` when no session id was known
(lines 131-134), then appends replies or throws per the else-chain; the
`finally` block resets `isLoading`. -/
def chat4Step (userId : String) (st : Chat4State) (o : FetchOutcome) :
    Chat4State × Option Json :=
  let messageToSend := jsTrim st.inputValue
  if messageToSend == "" || st.isLoading then (st, none)
  else
    let st1 : Chat4State :=
      { messages := st.messages ++ [{ text := messageToSend, sender := "user" }],
        inputValue := "", isLoading := true, sessionId := st.sessionId }
    let body := chat4RequestBody userId st.sessionId messageToSend
    let st2 :=
      match o with
      | .httpError status detail errF => chat4Catch st1 (chat4ErrMsg status detail errF)
      | .exn m => chat4Catch st1 m
      | .ok data =>
        let stS :=
          if !jsTruthy st.sessionId && jsTruthy data.session_id then
            { st1 with sessionId := data.session_id }
          else st1
        match data.messages with
        | some ms =>
          if 0 < ms.length then { stS with messages := stS.messages ++ bot4Replies ms }
          else chat4OkElse st.sessionId stS data
        | none => chat4OkElse st.sessionId stS data
    ({ st2 with isLoading := false }, some body)

/-- The hard-coded proof-of-concept password of `LoginPage.js` line 15. -/
def POC_PASSWORD : String := "mahindra123"

/-- The body of the `/api/login` request (`LoginPage.js` line 35). -/
structure LoginRequest where
  user_id : String
  deriving Repr, DecidableEq

/-- The payload `LoginPage` passes to `onLogin` (`LoginPage.js` line 47). -/
structure LoginData where
  username : String
  sessionId : String
  deriving Repr, DecidableEq

/-- Outcome of the `fetch('/api/login', ...)` call: an ok response carrying
`data.user_id` and `data.session_id`, a non-ok response with the parsed
body's `error` field, or a thrown exception. -/
inductive LoginOutcome where
  | ok : String → String → LoginOutcome
  | httpError : Option String → LoginOutcome
  | exn : String → LoginOutcome
  deriving Repr, DecidableEq

/-- Result of one `handleLogin` invocation: the final `error` state, the
dispatched request (`none` when a check failed before the fetch), and the
payload passed to `onLogin` (`none` when login did not succeed). -/
structure LoginResult where
  error : String
  request : Option LoginRequest
  login : Option LoginData
  deriving Repr, DecidableEq

/-- `handleLogin` of `LoginPage.js` (lines 11-53): the password check comes
first, then the non-empty trimmed username check; only then is the request
sent. On a non-ok response the thrown message is
`errData.error || 'Failed to create session.'`; the outer catch sets
`err.message || 'An error occurred during login. Please try again.'`. -/
def handleLogin (userId password : String) (o : LoginOutcome) : LoginResult :=
  if password != POC_PASSWORD then
    { error := "Invalid password.", request := none, login := none }
  else if jsTrim userId == "" then
    { error := "Username cannot be empty.", request := none, login := none }
  else
    match o with
    | .ok uid sid =>
      { error := "", request := some { user_id := userId },
        login := some { username := uid, sessionId := sid } }
    | .httpError errF =>
      { error := jsOr (some (jsOr errF "Failed to create session."))
          "An error occurred during login. Please try again.",
        request := some { user_id := userId }, login := none }
    | .exn m =>
      { error := jsOr (some m) "An error occurred during login. Please try again.",
        request := some { user_id := userId }, login := none }

/-- State of the `App` component of `App.js`: `username` and `sessionId`
(both initialised from localStorage or `''`). -/
structure AppState where
  username : String
  sessionId : String
  deriving Repr, DecidableEq

/-- What `App` renders. -/
inductive RenderedPage where
  | loginPage
  | chatApp
  deriving Repr, DecidableEq

/-- The render logic of `App.js` lines 46-48: `if (!username || !sessionId)
return <LoginPage/>`, else the main application. -/
def appRender (st : AppState) : RenderedPage :=
  if st.username == "" || st.sessionId == "" then .loginPage else .chatApp

/-- The browser's localStorage as the `App` effect sees it: the `username`
and `sessionId` keys, absent or present. -/
structure LocalStorage where
  username : Option String
  sessionId : Option String
  deriving Repr, DecidableEq

/-- The `useEffect` of `App.js` lines 18-27: store both keys when both
state values are truthy, remove both otherwise. -/
def appEffect (st : AppState) (_ls : LocalStorage) : LocalStorage :=
  if st.username != "" && st.sessionId != "" then
    { username := some st.username, sessionId := some st.sessionId }
  else
    { username := none, sessionId := none }

/-- Modelled from the spec: a tool invocation the model requests
(spec section 6, Model capability); the agent core that consumes it is not
part of the sources under src/ (the repository ships only the web
frontend, scripts and assets). -/
structure SpecToolCall where
  name : String
  arguments : String
  deriving Repr, DecidableEq

/-- Modelled from the spec: the model's output each time it is called —
exactly one of a final answer, a clarifying question, or tool invocations
(spec section 6, Model capability). -/
inductive ModelOutput where
  | finalAnswer : String → ModelOutput
  | clarifyingQuestion : String → ModelOutput
  | toolCalls : List SpecToolCall → ModelOutput
  deriving Repr, DecidableEq

/-- Whether the model output requests tool execution. -/
def ModelOutput.isToolRequest : ModelOutput → Bool
  | .toolCalls _ => true
  | _ => false

/-- Modelled from the spec: the states of the Reasoning Loop state machine
(spec section 4.5), whose implementation is absent from src/. -/
inductive LoopState where
  | awaitingModel
  | executingTool
  | done : String → LoopState
  | awaitingUser : String → LoopState
  deriving Repr, DecidableEq

/-- The terminal states of the loop: `done` and `awaitingUser`. -/
def LoopState.isTerminal : LoopState → Bool
  | .done _ => true
  | .awaitingUser _ => true
  | _ => false

/-- Modelled from the spec: the degraded answer forced when the step bound
is exceeded (spec section 4.5). -/
def degradedAnswer : String := "unable to complete"

/-- Modelled from the spec: the Reasoning Loop of section 4.5, absent from
src/. `model k` is the model's response to the k-th call; each iteration
consumes one unit of the remaining step budget, a tool request cycles back
to `AWAITING_MODEL`, and an exhausted budget forces `done degradedAnswer`.
Returns the terminal state and the number of steps consumed. -/
def runLoop (model : Nat → ModelOutput) : Nat → Nat → LoopState × Nat
  | _, 0 => (.done degradedAnswer, 0)
  | k, n + 1 =>
    match model k with
    | .finalAnswer t => (.done t, 1)
    | .clarifyingQuestion q => (.awaitingUser q, 1)
    | .toolCalls _ =>
      let r := runLoop model (k + 1) n
      (r.1, r.2 + 1)

/-- Modelled from the spec: one reasoning-loop run for a new user utterance
with the configured maximum step count. -/
def reasoningLoop (maxSteps : Nat) (model : Nat → ModelOutput) : LoopState :=
  (runLoop model 0 maxSteps).1

/-- The number of steps a reasoning-loop run consumes. -/
def reasoningLoopSteps (maxSteps : Nat) (model : Nat → ModelOutput) : Nat :=
  (runLoop model 0 maxSteps).2

/-! ### Helper lemmas -/

theorem chatCatch_messages (st : ChatState) (e : String) :
    (chatCatch st e).messages =
      st.messages ++ [{ text := "Error: " ++ e, sender := "system" }] := rfl

theorem chatDataError_messages (st : ChatState) (d : ChatData) :
    ∃ t, (chatDataError st d).messages = st.messages ++ t := by
  rcases hd : d.error with _ | e
  · exact ⟨[], by simp [chatDataError, hd]⟩
  · cases he : (e == "") with
    | true => exact ⟨[], by simp [chatDataError, hd, he]⟩
    | false =>
      exact ⟨[{ text := "Error: " ++ e, sender := "system" }],
        by simp [chatDataError, hd, he, chatCatch]⟩

theorem chatOkBranch_messages (st : ChatState) (d : ChatData) :
    ∃ t, (chatOkBranch st d).messages = st.messages ++ t := by
  rcases hm : d.messages with _ | ms
  · obtain ⟨t, ht⟩ := chatDataError_messages st d
    exact ⟨t, by simp [chatOkBranch, hm, ht]⟩
  · by_cases hlen : 0 < ms.length
    · exact ⟨botReplies ms, by simp [chatOkBranch, hm, hlen]⟩
    · obtain ⟨t, ht⟩ := chatDataError_messages st d
      exact ⟨t, by simp [chatOkBranch, hm, hlen, ht]⟩

theorem chatStep_messages (u s : String) (st : ChatState) (o : FetchOutcome) :
    ∃ t, (chatStep u s st o).1.messages = st.messages ++ t := by
  cases hg : (jsTrim st.inputValue == "" || st.isLoading) with
  | true => exact ⟨[], by simp [chatStep, hg]⟩
  | false =>
    cases o with
    | httpError status detail errF =>
      exact ⟨[{ text := jsTrim st.inputValue, sender := "user" },
              { text := "Error: " ++ chatErrMsg status errF, sender := "system" }],
        by simp [chatStep, hg, chatCatch]⟩
    | exn m =>
      exact ⟨[{ text := jsTrim st.inputValue, sender := "user" },
              { text := "Error: " ++ m, sender := "system" }],
        by simp [chatStep, hg, chatCatch]⟩
    | ok data =>
      obtain ⟨t, ht⟩ := chatOkBranch_messages
        { messages := st.messages ++ [{ text := jsTrim st.inputValue, sender := "user" }],
          inputValue := "", isLoading := true, error := none } data
      exact ⟨{ text := jsTrim st.inputValue, sender := "user" } :: t,
        by simp [chatStep, hg, ht]⟩

/-! ### Claims -/

/-- C1, counterexample: the request body `handleSendMessage` builds for the
send "show top products" has no `content` key inside its `message` object —
the utterance is under the key `message` — so the claim that the message
object carries the text under the key `content` is false on the code. -/
theorem C1_counterexample :
    ((chatRequestBody "alice" "sess-1" "show top products").getField "message").bind
      (fun j => j.getField "content") = none ∧
    ((chatRequestBody "alice" "sess-1" "show top products").getField "message").bind
      (fun j => j.getField "message") = some (Json.str "show top products") :=
  ⟨rfl, rfl⟩

/-- C1 (amended): for every chat message the user sends, `handleSendMessage`
POSTs to `/api/chat` a body of the shape
`{user_id, session_id, message: {message, role}}` — the message object
carries the utterance text under the key `message` (not `content`) together
with a `role` field. -/
theorem C1_holds (username sessionId : String) (st : ChatState) (o : FetchOutcome)
    (hmsg : (jsTrim st.inputValue == "") = false) (hload : st.isLoading = false) :
    (chatStep username sessionId st o).2 =
      some (chatRequestBody username sessionId (jsTrim st.inputValue)) ∧
    (chatRequestBody username sessionId (jsTrim st.inputValue)).getField "user_id" =
      some (.str username) ∧
    (chatRequestBody username sessionId (jsTrim st.inputValue)).getField "session_id" =
      some (.str sessionId) ∧
    ((chatRequestBody username sessionId (jsTrim st.inputValue)).getField "message").bind
      (fun j => j.getField "message") = some (.str (jsTrim st.inputValue)) ∧
    ((chatRequestBody username sessionId (jsTrim st.inputValue)).getField "message").bind
      (fun j => j.getField "role") = some (.str "user") := by
  refine ⟨?_, rfl, rfl, rfl, rfl⟩
  simp [chatStep, hmsg, hload]

/-- C1 witness at a concrete send. -/
theorem C1_witness :
    (chatStep "alice" "sess-1"
        { messages := [], inputValue := "hello", isLoading := false, error := none }
        (FetchOutcome.exn "x")).2 =
      some (chatRequestBody "alice" "sess-1" (jsTrim "hello")) :=
  (C1_holds "alice" "sess-1"
    { messages := [], inputValue := "hello", isLoading := false, error := none }
    (FetchOutcome.exn "x") (by decide) rfl).1

/-- C2: the conversation history is append-only — over any sequence of
sends with any fetch outcomes, the resulting `messages` state extends the
initial one at the end, never removing, reordering or mutating previously
appended entries, so the displayed order is the append order. -/
theorem C2_holds (u s : String) (st : ChatState) (evs : List (String × FetchOutcome)) :
    ∃ t, (chatRun u s st evs).messages = st.messages ++ t := by
  induction evs generalizing st with
  | nil => exact ⟨[], by simp [chatRun]⟩
  | cons ev rest ih =>
    obtain ⟨inp, o⟩ := ev
    obtain ⟨t1, h1⟩ := chatStep_messages u s { st with inputValue := inp } o
    obtain ⟨t2, h2⟩ := ih (chatStep u s { st with inputValue := inp } o).1
    exact ⟨t1 ++ t2, by simp [chatRun, h2, h1]⟩

/-- C3: while `isLoading` is true, `handleSendMessage` returns early
without dispatching a request and without changing the state, and both the
input field and the send button are disabled. -/
theorem C3_holds (u s : String) (st : ChatState) (o : FetchOutcome)
    (h : st.isLoading = true) :
    chatStep u s st o = (st, none) ∧
    inputDisabled st = true ∧ sendDisabled st = true := by
  refine ⟨?_, ?_, ?_⟩
  · simp [chatStep, h]
  · simp [inputDisabled, h]
  · simp [sendDisabled, h]

/-- C3 witness at a concrete loading state. -/
theorem C3_witness :
    chatStep "alice" "sess-1"
        { messages := [], inputValue := "pending", isLoading := true, error := none }
        (FetchOutcome.exn "x") =
      ({ messages := [], inputValue := "pending", isLoading := true, error := none }, none) :=
  (C3_holds "alice" "sess-1"
    { messages := [], inputValue := "pending", isLoading := true, error := none }
    (FetchOutcome.exn "x") rfl).1

/-- C10: whenever `handleSendMessage` actually dispatched a request (in
either ChatInterface variant), the `finally` block leaves `isLoading` false,
so the input and send button are re-enabled whatever the outcome was. -/
theorem C10_holds (u s uid : String) (st : ChatState) (st4 : Chat4State)
    (o o4 : FetchOutcome) :
    ((chatStep u s st o).2.isSome = true → (chatStep u s st o).1.isLoading = false) ∧
    ((chat4Step uid st4 o4).2.isSome = true → (chat4Step uid st4 o4).1.isLoading = false) := by
  constructor
  · intro h
    cases hg : (jsTrim st.inputValue == "" || st.isLoading) with
    | true => simp [chatStep, hg] at h
    | false => simp [chatStep, hg]
  · intro h
    cases hg : (jsTrim st4.inputValue == "" || st4.isLoading) with
    | true => simp [chat4Step, hg] at h
    | false => simp [chat4Step, hg]

/-- C10 witness: after a concrete dispatched request that threw, both
variants end with `isLoading = false`. -/
theorem C10_witness :
    (chatStep "alice" "sess-1"
        { messages := [], inputValue := "hi", isLoading := false, error := none }
        (FetchOutcome.exn "x")).1.isLoading = false ∧
    (chat4Step "u1"
        { messages := [], inputValue := "hi", isLoading := false, sessionId := none }
        (FetchOutcome.exn "x")).1.isLoading = false :=
  ⟨(C10_holds "alice" "sess-1" "u1"
      { messages := [], inputValue := "hi", isLoading := false, error := none }
      { messages := [], inputValue := "hi", isLoading := false, sessionId := none }
      (FetchOutcome.exn "x") (FetchOutcome.exn "x")).1 (by decide),
   (C10_holds "alice" "sess-1" "u1"
      { messages := [], inputValue := "hi", isLoading := false, error := none }
      { messages := [], inputValue := "hi", isLoading := false, sessionId := none }
      (FetchOutcome.exn "x") (FetchOutcome.exn "x")).2 (by decide)⟩

/-- C4, counterexample: for a concrete failed call whose thrown message is
an internal connection error, the appended `system` message's rendered text
is `"Error: "` followed by that internal detail verbatim (dropping the
7-character marker recovers the raw detail exactly), so the claim that
internal error detail is never exposed verbatim in the rendered response is
false on the code. -/
theorem C4_counterexample :
    (chatStep "alice" "sess-1"
        { messages := [], inputValue := "hi", isLoading := false, error := none }
        (FetchOutcome.exn "connect ECONNREFUSED 127.0.0.1:8080")).1.messages =
      [{ text := "hi", sender := "user" },
       { text := "Error: connect ECONNREFUSED 127.0.0.1:8080", sender := "system" }] ∧
    ("Error: connect ECONNREFUSED 127.0.0.1:8080").drop 7 =
      "connect ECONNREFUSED 127.0.0.1:8080" := by
  constructor
  · decide
  · rfl

/-- C4 (amended): when the `/api/chat` call fails (non-ok HTTP status, a
returned `{error}` field, or a thrown exception), `handleSendMessage`
appends exactly one message with sender `system`; its text is `"Error: "`
followed by the error's message, so the internal error detail appears
verbatim in the rendered text (it is not sanitised away). -/
theorem C4_holds (u s : String) (st : ChatState) (o : FetchOutcome) (m : String)
    (hmsg : (jsTrim st.inputValue == "") = false) (hload : st.isLoading = false)
    (hfail : failMsg o = some m) :
    (chatStep u s st o).1.messages =
      st.messages ++ [{ text := jsTrim st.inputValue, sender := "user" },
                      { text := "Error: " ++ m, sender := "system" }] ∧
    (chatStep u s st o).1.error = some ("Failed to get response: " ++ m) := by
  have hg : (jsTrim st.inputValue == "" || st.isLoading) = false := by
    simp [hmsg, hload]
  cases o with
  | httpError status detail errF =>
    simp only [failMsg, Option.some.injEq] at hfail
    subst hfail
    constructor <;> simp [chatStep, hg, chatCatch]
  | exn em =>
    simp only [failMsg, Option.some.injEq] at hfail
    subst hfail
    constructor <;> simp [chatStep, hg, chatCatch]
  | ok data =>
    obtain ⟨sid, msgs, derr⟩ := data
    have hde : dataFailMsg { session_id := sid, messages := msgs, error := derr } = some m →
        derr = some m ∧ (m == "") = false := by
      intro h
      rcases derr with _ | e
      · simp [dataFailMsg] at h
      · cases he : (e == "") with
        | true => simp [dataFailMsg, he] at h
        | false =>
          simp only [dataFailMsg, he, Bool.false_eq_true, if_false,
            Option.some.injEq] at h
          subst h
          exact ⟨rfl, he⟩
    rcases msgs with _ | ms
    · simp only [failMsg] at hfail
      obtain ⟨herr, hm0⟩ := hde hfail
      subst herr
      constructor <;>
        simp [chatStep, hg, chatOkBranch, chatDataError, hm0, chatCatch]
    · by_cases hlen : 0 < ms.length
      · simp [failMsg, hlen] at hfail
      · simp only [failMsg, hlen, if_false] at hfail
        obtain ⟨herr, hm0⟩ := hde hfail
        subst herr
        constructor <;>
          simp [chatStep, hg, chatOkBranch, chatDataError, hlen, hm0, chatCatch]

/-- C4 witness: a response carrying an `{error}` field yields exactly one
appended `system` message with the error text embedded. -/
theorem C4_witness :
    (chatStep "alice" "sess-1"
        { messages := [], inputValue := "hi", isLoading := false, error := none }
        (FetchOutcome.ok
          { session_id := none, messages := none, error := some "db on fire" })).1.messages =
      [{ text := "hi", sender := "user" },
       { text := "Error: db on fire", sender := "system" }] := by
  have h := C4_holds "alice" "sess-1"
    { messages := [], inputValue := "hi", isLoading := false, error := none }
    (FetchOutcome.ok { session_id := none, messages := none, error := some "db on fire" })
    "db on fire" (by decide) rfl (by decide)
  simpa using h.1

/-- C5: for every successful `/api/chat` response with a non-empty
`messages` array, the bot replies are appended in exactly the order of the
response array, and what each reply hands to the Markdown renderer is the
returned `content`, unmodified. -/
theorem C5_holds (u s : String) (st : ChatState) (sid err : Option String)
    (ms : List RespMsg) (o : FetchOutcome)
    (hmsg : (jsTrim st.inputValue == "") = false) (hload : st.isLoading = false)
    (ho : o = FetchOutcome.ok { session_id := sid, messages := some ms, error := err })
    (hlen : 0 < ms.length) :
    (chatStep u s st o).1.messages =
      st.messages ++ [{ text := jsTrim st.inputValue, sender := "user" }] ++ botReplies ms ∧
    (botReplies ms).map renderedMarkdown = ms.map RespMsg.content := by
  subst ho
  have hg : (jsTrim st.inputValue == "" || st.isLoading) = false := by
    simp [hmsg, hload]
  constructor
  · simp [chatStep, hg, chatOkBranch, hlen]
  · simp [botReplies, renderedMarkdown]

/-- C5 witness: a concrete two-message response is appended in order with
content preserved. -/
theorem C5_witness :
    (chatStep "alice" "sess-1"
        { messages := [], inputValue := "hi", isLoading := false, error := none }
        (FetchOutcome.ok
          { session_id := none,
            messages := some [{ role := "model", content := "**Answer** one" },
                              { role := "model", content := "| a | b |" }],
            error := none })).1.messages =
      [{ text := "hi", sender := "user" },
       { text := "**Answer** one", sender := "bot" },
       { text := "| a | b |", sender := "bot" }] := by
  have h := C5_holds "alice" "sess-1"
    { messages := [], inputValue := "hi", isLoading := false, error := none }
    none none
    [{ role := "model", content := "**Answer** one" },
     { role := "model", content := "| a | b |" }]
    (FetchOutcome.ok
      { session_id := none,
        messages := some [{ role := "model", content := "**Answer** one" },
                          { role := "model", content := "| a | b |" }],
        error := none })
    (by decide) rfl rfl (by decide)
  simpa [botReplies] using h.1

theorem chat4Catch_sessionId (st : Chat4State) (e : String) :
    (chat4Catch st e).sessionId = st.sessionId := rfl

theorem chat4NoSid_sessionId (orig : Option String) (st : Chat4State) (d : ChatData) :
    (chat4NoSid orig st d).sessionId = st.sessionId := by
  unfold chat4NoSid
  split
  · rfl
  · rfl

theorem chat4OkElse_sessionId (orig : Option String) (st : Chat4State) (d : ChatData) :
    (chat4OkElse orig st d).sessionId = st.sessionId := by
  rcases hd : d.error with _ | e
  · simp [chat4OkElse, hd, chat4NoSid_sessionId]
  · cases he : (e == "") with
    | true => simp [chat4OkElse, hd, he, chat4NoSid_sessionId]
    | false => simp [chat4OkElse, hd, he, chat4Catch]

/-- The session id after one `part_004` step with a dispatched request:
on an ok response it becomes `data.session_id` exactly when no truthy
session id was stored and the response's id is truthy; every other branch
leaves it unchanged. -/
theorem chat4Step_sessionId (uid : String) (st : Chat4State) (o : FetchOutcome)
    (hg : (jsTrim st.inputValue == "" || st.isLoading) = false) :
    (chat4Step uid st o).1.sessionId =
      match o with
      | .ok data =>
        if !jsTruthy st.sessionId && jsTruthy data.session_id then data.session_id
        else st.sessionId
      | _ => st.sessionId := by
  cases o with
  | httpError status detail errF => simp [chat4Step, hg, chat4Catch]
  | exn m => simp [chat4Step, hg, chat4Catch]
  | ok data =>
    cases hc : (!jsTruthy st.sessionId && jsTruthy data.session_id) with
    | true =>
      rcases hm : data.messages with _ | ms
      · simp [chat4Step, hg, hc, hm, chat4OkElse_sessionId]
      · by_cases hlen : 0 < ms.length
        · simp [chat4Step, hg, hc, hm, hlen]
        · simp [chat4Step, hg, hc, hm, hlen, chat4OkElse_sessionId]
    | false =>
      rcases hm : data.messages with _ | ms
      · simp [chat4Step, hg, hc, hm, chat4OkElse_sessionId]
      · by_cases hlen : 0 < ms.length
        · simp [chat4Step, hg, hc, hm, hlen]
        · simp [chat4Step, hg, hc, hm, hlen, chat4OkElse_sessionId]

/-- C6: in the `part_004` ChatInterface, the first chat call of a session
(no stored session id) omits `session_id` from the request body; a truthy
`session_id` returned on that call is stored; and once a (non-empty)
session id is stored, every subsequent dispatched request includes exactly
it and the step never drops it. -/
theorem C6_holds (uid s : String) (st : Chat4State) (o : FetchOutcome) (data : ChatData)
    (hmsg : (jsTrim st.inputValue == "") = false) (hload : st.isLoading = false) :
    (st.sessionId = none →
      (chat4Step uid st o).2 = some (chat4RequestBody uid none (jsTrim st.inputValue)) ∧
      (chat4RequestBody uid none (jsTrim st.inputValue)).getField "session_id" = none) ∧
    (st.sessionId = some s → (s == "") = false →
      (chat4Step uid st o).2 =
        some (chat4RequestBody uid (some s) (jsTrim st.inputValue)) ∧
      (chat4RequestBody uid (some s) (jsTrim st.inputValue)).getField "session_id" =
        some (.str s) ∧
      (chat4Step uid st o).1.sessionId = some s) ∧
    (st.sessionId = none → o = FetchOutcome.ok data → jsTruthy data.session_id = true →
      (chat4Step uid st o).1.sessionId = data.session_id) := by
  have hg : (jsTrim st.inputValue == "" || st.isLoading) = false := by
    simp [hmsg, hload]
  refine ⟨?_, ?_, ?_⟩
  · intro hsid
    constructor
    · simp [chat4Step, hg, hsid]
    · rfl
  · intro hsid hs
    refine ⟨?_, ?_, ?_⟩
    · simp [chat4Step, hg, hsid]
    · simp [chat4RequestBody, hs, Json.getField, lookupField]
    · have := chat4Step_sessionId uid st o hg
      cases o with
      | httpError status detail errF => rw [this, hsid]
      | exn m => rw [this, hsid]
      | ok d =>
        rw [this]
        have ht : jsTruthy st.sessionId = true := by simp [hsid, jsTruthy, bne, hs]
        simp only [ht, Bool.not_true, Bool.false_and, Bool.false_eq_true, if_false]
        exact hsid
  · intro hsid ho hdat
    subst ho
    have := chat4Step_sessionId uid st (FetchOutcome.ok data) hg
    rw [this]
    have hf : jsTruthy st.sessionId = false := by simp [hsid, jsTruthy]
    simp [hf, hdat]

/-- C6 witness: with no stored session id, a concrete ok response carrying
`session_id = "sess-9"` gets stored. -/
theorem C6_witness :
    (chat4Step "u1"
        { messages := [], inputValue := "hi", isLoading := false, sessionId := none }
        (FetchOutcome.ok
          { session_id := some "sess-9", messages := none, error := none })).1.sessionId =
      some "sess-9" :=
  (C6_holds "u1" "x"
    { messages := [], inputValue := "hi", isLoading := false, sessionId := none }
    (FetchOutcome.ok { session_id := some "sess-9", messages := none, error := none })
    { session_id := some "sess-9", messages := none, error := none }
    (by decide) rfl).2.2 rfl rfl (by decide)

theorem runLoop_terminal (model : Nat → ModelOutput) (n k : Nat) :
    ((runLoop model k n).1).isTerminal = true := by
  induction n generalizing k with
  | zero => rfl
  | succ n ih =>
    simp only [runLoop]
    cases hm : model k with
    | finalAnswer t => rfl
    | clarifyingQuestion q => rfl
    | toolCalls cs => exact ih (k + 1)

theorem runLoop_le (model : Nat → ModelOutput) (n k : Nat) :
    (runLoop model k n).2 ≤ n := by
  induction n generalizing k with
  | zero => exact Nat.le_refl 0
  | succ n ih =>
    simp only [runLoop]
    cases hm : model k with
    | finalAnswer t => exact Nat.succ_le_succ (Nat.zero_le n)
    | clarifyingQuestion q => exact Nat.succ_le_succ (Nat.zero_le n)
    | toolCalls cs => exact Nat.succ_le_succ (ih (k + 1))

theorem runLoop_forced (model : Nat → ModelOutput)
    (h : ∀ j, (model j).isToolRequest = true) (n k : Nat) :
    (runLoop model k n).1 = LoopState.done degradedAnswer := by
  induction n generalizing k with
  | zero => rfl
  | succ n ih =>
    simp only [runLoop]
    cases hm : model k with
    | finalAnswer t =>
      have hk := h k
      rw [hm] at hk
      simp [ModelOutput.isToolRequest] at hk
    | clarifyingQuestion q =>
      have hk := h k
      rw [hm] at hk
      simp [ModelOutput.isToolRequest] at hk
    | toolCalls cs => exact ih (k + 1)

/-- C7 (spec-modelled: the Reasoning Loop of spec section 4.5 is absent
from src/): for any sequence of model responses the loop reaches a
terminal state consuming at most the configured maximum step count, and if
the model keeps requesting tools the exhausted bound forces a terminal
`done` with the degraded "unable to complete" answer instead of looping
indefinitely. -/
theorem C7_holds (maxSteps : Nat) (model : Nat → ModelOutput) :
    (reasoningLoop maxSteps model).isTerminal = true ∧
    reasoningLoopSteps maxSteps model ≤ maxSteps ∧
    ((∀ j, (model j).isToolRequest = true) →
      reasoningLoop maxSteps model = LoopState.done degradedAnswer) :=
  ⟨runLoop_terminal model maxSteps 0, runLoop_le model maxSteps 0,
    fun h => runLoop_forced model h maxSteps 0⟩

/-- C7 witness: a model that always requests a tool call exhausts a bound
of 3 steps and is forced to the degraded terminal answer. -/
theorem C7_witness :
    reasoningLoop 3
        (fun _ => ModelOutput.toolCalls
          [{ name := "execute_query", arguments := "SELECT 1" }]) =
      LoopState.done degradedAnswer :=
  (C7_holds 3
    (fun _ => ModelOutput.toolCalls
      [{ name := "execute_query", arguments := "SELECT 1" }])).2.2
    (fun _ => rfl)

/-- C8: `handleLogin` dispatches the `/api/login` request exactly when the
password equals the hard-coded constant and the trimmed username is
non-empty; the dispatched body is `{user_id}`; on a failed password check
it sets "Invalid password." and on an empty trimmed username it sets
"Username cannot be empty.", in both cases sending no request and calling
`onLogin` with nothing. -/
theorem C8_holds (userId password : String) (o : LoginOutcome) :
    ((handleLogin userId password o).request.isSome = true ↔
      (password = POC_PASSWORD ∧ jsTrim userId ≠ "")) ∧
    ((handleLogin userId password o).request.isSome = true →
      (handleLogin userId password o).request = some { user_id := userId }) ∧
    (password ≠ POC_PASSWORD →
      handleLogin userId password o =
        { error := "Invalid password.", request := none, login := none }) ∧
    (password = POC_PASSWORD → jsTrim userId = "" →
      handleLogin userId password o =
        { error := "Username cannot be empty.", request := none, login := none }) := by
  by_cases hp : password = POC_PASSWORD
  · by_cases hu : jsTrim userId = ""
    · simp [handleLogin, hp, hu]
    · cases o <;> simp [handleLogin, hp, hu]
  · simp [handleLogin, hp, bne]

/-- C8 witness: a wrong password at a concrete input yields the error
message and no request. -/
theorem C8_witness :
    handleLogin "alice" "wrong" (LoginOutcome.ok "alice" "sess-1") =
      { error := "Invalid password.", request := none, login := none } :=
  (C8_holds "alice" "wrong" (LoginOutcome.ok "alice" "sess-1")).2.2.1 (by decide)

/-- C9: `App` renders the chat application exactly when both `username`
and `sessionId` are non-empty; whenever either is empty the `LoginPage` is
rendered; and after the persistence effect runs, localStorage holds both
keys exactly when both state values are non-empty. -/
theorem C9_holds (st : AppState) (ls : LocalStorage) :
    (appRender st = RenderedPage.chatApp ↔ (st.username ≠ "" ∧ st.sessionId ≠ "")) ∧
    (((appEffect st ls).username.isSome && (appEffect st ls).sessionId.isSome) = true ↔
      (st.username ≠ "" ∧ st.sessionId ≠ "")) ∧
    ((st.username = "" ∨ st.sessionId = "") → appRender st = RenderedPage.loginPage) ∧
    ((st.username ≠ "" ∧ st.sessionId ≠ "") →
      appEffect st ls = { username := some st.username, sessionId := some st.sessionId }) ∧
    ((st.username = "" ∨ st.sessionId = "") →
      appEffect st ls = { username := none, sessionId := none }) := by
  by_cases hu : st.username = "" <;> by_cases hs : st.sessionId = "" <;>
    simp [appRender, appEffect, hu, hs]

/-- C9 witness: a concrete logged-in state renders the chat application and
persists both keys. -/
theorem C9_witness :
    appRender { username := "alice", sessionId := "sess-1" } = RenderedPage.chatApp ∧
    appEffect { username := "alice", sessionId := "sess-1" }
        { username := none, sessionId := none } =
      { username := some "alice", sessionId := some "sess-1" } := by
  have h := C9_holds { username := "alice", sessionId := "sess-1" }
    { username := none, sessionId := none }
  exact ⟨h.1.mpr (by decide), h.2.2.2.1 (by decide)⟩

end MahindraT2Data
